import Mathlib

/-!
Verification of the OCR inference-client adapter
(`nv_ingest_api/internal/primitives/nim/model_interface/ocr.py`).

Shallow embedding conventions:
- Python floats are modelled as rationals (the code performs only field
  arithmetic on them);
- NumPy arrays are modelled by their shapes, because the adapter reads only
  shapes of the pixel arrays it handles (pixel contents flow through it
  as a black box into the external preprocessing helpers);
- the result of `json.loads` on a gRPC response cell is modelled by an
  explicit JSON value type `JVal`;
- raised Python exceptions are modelled with `Except PyError`;
- external collaborators (`preprocess_image_for_paddle`, `base64_to_numpy`,
  the Triton registry query, the environment) are function parameters, and
  `preprocess_image_for_ocr` is modelled from the spec (see its doc comment).
-/

namespace OCR

/-- Python exception kinds raised by the OCR adapter. -/
inductive PyError where
  | keyError (msg : String)
  | valueError (msg : String)
  | runtimeError (msg : String)
  | typeError (msg : String)
deriving DecidableEq

deriving instance DecidableEq for Except

/-- A decoded image, a (height, width, channel) pixel array, modelled by its
shape: the adapter itself reads only `img.shape`. -/
structure NDImage where
  height : Nat
  width : Nat
  channels : Nat
deriving DecidableEq

/-- A per-image record stored in the `image_dims` list: keys `new_width`,
`new_height` and the optional keys `pad_width`, `pad_height`, `scale_factor`
(read back with `.get` defaults 0, 0 and 1.0). -/
structure ImageDims where
  new_width : ℚ
  new_height : ℚ
  pad_width : Option ℚ
  pad_height : Option ℚ
  scale_factor : Option ℚ
deriving DecidableEq

/-- Shape of a rank-3 float array (H, W, C). -/
structure Tensor3 where
  h : Nat
  w : Nat
  c : Nat
deriving DecidableEq

/-- Shape of a rank-4 float array (B, H, W, C). -/
structure Tensor4 where
  b : Nat
  h : Nat
  w : Nat
  c : Nat
deriving DecidableEq

/-- The helper `chunk_list(lst, chunk_size)` defined inside `format_input`:
`[lst[i : i + chunk_size] for i in range(0, len(lst), chunk_size)]`.
Python raises for `chunk_size = 0` (a `range` step of 0); the guard below
returns `[]` there, and every theorem about chunking assumes a positive
chunk size. -/
def chunk_list (l : List α) (n : Nat) : List (List α) :=
  match l with
  | [] => []
  | x :: xs =>
    if n = 0 then []
    else (x :: xs).take n :: chunk_list ((x :: xs).drop n) n
termination_by l.length
decreasing_by
  simp only [List.length_drop, List.length_cons]
  omega

/-- Python `zip` over three lists (truncating to the shortest). -/
def zip3 (a : List α) (b : List β) (c : List γ) : List (α × β × γ) :=
  a.zip (b.zip c)

/-- Modelled from the spec: `preprocess_image_for_ocr` lives in the external
`helpers` module, which is out of scope for the adapter sources (spec
section 1: only its output contract matters). Per spec section 4.1 it
resizes the image, preserving the aspect ratio, into the
`target_height x target_width` canvas, padding at the bottom/right, and
returns the processed array (whose shape is the canvas) together with the
geometry record describing the transform. -/
def preprocess_image_for_ocr (img : NDImage) (target_height target_width : Nat)
    (pad_how : String) : Tensor3 × ImageDims :=
  let s : ℚ := if img.height = 0 ∨ img.width = 0 then 1
    else min ((target_height : ℚ) / img.height) ((target_width : ℚ) / img.width)
  (⟨target_height, target_width, img.channels⟩,
   ⟨s * img.width, s * img.height, some 0, some 0, some s⟩)

/-- Embedding of `np.expand_dims(arr, axis=0)` on shapes. -/
def expand_dims (t : Tensor3) : Tensor4 := ⟨1, t.h, t.w, t.c⟩

/-- Embedding of `np.concatenate(chunk, axis=0)` on shapes: the batch axes
add up; the remaining axes, equal across a well-formed chunk, are taken from
the first element. -/
def np_concat (ts : List Tensor4) : Tensor4 :=
  match ts with
  | [] => ⟨0, 0, 0, 0⟩
  | t :: _ => ⟨(ts.map Tensor4.b).sum, t.h, t.w, t.c⟩

/-- One HTTP input entry,
`(type := "image_url", url := "data:image/png;base64,<b64>")`. -/
structure ImageObj where
  type : String
  url : String
deriving DecidableEq

/-- One HTTP request payload: field `input`, plus field `merge_levels` for
the generic (non-paddle) detector. -/
structure HttpPayload where
  input : List ImageObj
  merge_levels : Option (List String)
deriving DecidableEq

/-- One element of the `batches` list returned by `format_input`: a bare
tensor (gRPC, paddle), a tensor with the (1, B) merge-level side array
(gRPC, generic detector), or an HTTP payload. -/
inductive OCRBatch where
  | tensor (t : Tensor4)
  | tensorMerge (t : Tensor4) (merge_levels : List (List String))
  | http (payload : HttpPayload)
deriving DecidableEq

/-- One element of the `batch_data_list` returned by `format_input`. -/
structure BatchData where
  image_arrays : List NDImage
  image_dims : List ImageDims
deriving DecidableEq

/-- The `data` dictionary as seen by `format_input` after
`prepare_data_for_inference`: decoded images plus the original base64
fields. -/
structure OCRData where
  image_arrays : List NDImage
  base64_images : Option (List String)
  base64_image : Option String
deriving DecidableEq

/-- The maximum-side computation of the gRPC branch of `format_input`:
`max(max(img.shape[:2]) for img in images)` (the fold is over a non-empty
list wherever Python does not raise). -/
def max_img_side (images : List NDImage) : Nat :=
  (images.map fun img => max img.height img.width).foldr max 0

/-- Per-image preprocessing dispatch of the gRPC branch of `format_input`:
paddle images go through the external routine, other models through the
square-canvas routine at the precomputed global target size. -/
def ocr_proc_fun (preprocess_image_for_paddle : NDImage → Tensor3 × ImageDims)
    (model_name : String) (max_length : Nat) (img : NDImage) :
    Tensor3 × ImageDims :=
  if model_name = "paddle" then preprocess_image_for_paddle img
  else preprocess_image_for_ocr img max_length max_length "bottom_right"

/-- Batch construction of the gRPC branch of `format_input`: concatenate the
processed chunk; the generic detector additionally carries
`np.array([[merge_level] * len(batched_input)])`. -/
def grpc_batch_of_chunk (model_name merge_level : String)
    (proc_chunk : List Tensor4) : OCRBatch :=
  let batched_input := np_concat proc_chunk
  if model_name = "paddle" then .tensor batched_input
  else .tensorMerge batched_input [List.replicate batched_input.b merge_level]

/-- Payload construction of the HTTP branch of `format_input`: the paddle
payload is the input chunk alone, the generic-detector payload adds one
`merge_level` entry per chunk element. -/
def http_batch_of_chunk (model_name merge_level : String)
    (input_chunk : List ImageObj) : OCRBatch :=
  if model_name = "paddle" then .http ⟨input_chunk, none⟩
  else .http ⟨input_chunk, some (List.replicate input_chunk.length merge_level)⟩

/-- The HTTP branch of `format_input`, after the base64 source list has been
selected (`base64_images` when present, else the singleton of
`base64_image`). -/
def format_input_http (images : List NDImage) (base64_list : List String)
    (max_batch_size : Nat) (model_name merge_level : String) :
    Except PyError (List OCRBatch × List BatchData) :=
  let pairs := base64_list.zip images
  let input_list := pairs.map fun p =>
    ImageObj.mk "image_url" ("data:image/png;base64," ++ p.1)
  let dims := pairs.map fun p =>
    ImageDims.mk (p.2.width : ℚ) (p.2.height : ℚ) none none none
  let chunks := zip3 (chunk_list input_list max_batch_size)
    (chunk_list images max_batch_size) (chunk_list dims max_batch_size)
  let batches := chunks.map fun ch =>
    http_batch_of_chunk model_name merge_level ch.1
  let batch_data_list := chunks.map fun ch => BatchData.mk ch.2.1 ch.2.2
  .ok (batches, batch_data_list)

/-- Embedding of `OCRModelInterface.format_input`. The external paddle
preprocessing routine (spec section 4.1: an external collaborator contract
whose returned geometry is simply stored) is a parameter. -/
def format_input (preprocess_image_for_paddle : NDImage → Tensor3 × ImageDims)
    (data : OCRData) (protocol : String) (max_batch_size : Nat)
    (model_name merge_level : String) :
    Except PyError (List OCRBatch × List BatchData) :=
  let images := data.image_arrays
  if protocol = "grpc" then
    if images = [] then
      .error (.valueError "max arg is an empty sequence")
    else
      let max_length := max_img_side images
      let procDims := images.map
        (ocr_proc_fun preprocess_image_for_paddle model_name max_length)
      let processed := procDims.map fun pd => expand_dims pd.1
      let dims := procDims.map Prod.snd
      let chunks := zip3 (chunk_list processed max_batch_size)
        (chunk_list images max_batch_size) (chunk_list dims max_batch_size)
      let batches := chunks.map fun ch =>
        grpc_batch_of_chunk model_name merge_level ch.1
      let batch_data_list := chunks.map fun ch => BatchData.mk ch.2.1 ch.2.2
      .ok (batches, batch_data_list)
  else if protocol = "http" then
    match data.base64_images, data.base64_image with
    | some base64_list, _ =>
      format_input_http images base64_list max_batch_size model_name merge_level
    | none, some b64 =>
      format_input_http images [b64] max_batch_size model_name merge_level
    | none, none => .error (.keyError "base64_image")
  else
    .error (.valueError "Invalid protocol specified. Must be grpc or http.")

/-- A decoded bounding-box entry as seen by `_postprocess_ocr_response`:
either the string sentinel `"nan"` or a polygon, a list of (x, y) points. -/
inductive BBox where
  | nan : BBox
  | poly (points : List (ℚ × ℚ)) : BBox
deriving DecidableEq

/-- The points of a bounding-box entry (the sentinel has none; it is dropped
before its points would be read). -/
def BBox.pts : BBox → List (ℚ × ℚ)
  | .nan => []
  | .poly points => points

/-- Test for the `"nan"` sentinel (`box == "nan"`). -/
def BBox.isNan : BBox → Bool
  | .nan => true
  | .poly _ => false

/-- The per-point remap of `_postprocess_ocr_response`:
`x_pixels = x * max_width - pad_width`, `x_original = x_pixels / scale_factor`
(and likewise for y). -/
def remap_point (max_width max_height pad_width pad_height scale_factor : ℚ)
    (point : ℚ × ℚ) : ℚ × ℚ :=
  ((point.1 * max_width - pad_width) / scale_factor,
   (point.2 * max_height - pad_height) / scale_factor)

/-- The conversion loop of `_postprocess_ocr_response`: walk the zipped
(box, text, confidence) triples in order, skip sentinel boxes together with
their text and confidence, and remap every point of a kept box. -/
def remap_loop (max_width max_height pad_width pad_height scale_factor : ℚ) :
    List (BBox × String × ℚ) → List (List (ℚ × ℚ)) × List String × List ℚ
  | [] => ([], [], [])
  | (box, txt, conf) :: rest =>
    let tail := remap_loop max_width max_height pad_width pad_height
      scale_factor rest
    match box with
    | .nan => tail
    | .poly points =>
      ((points.map
          (remap_point max_width max_height pad_width pad_height scale_factor))
          :: tail.1,
       txt :: tail.2.1, conf :: tail.2.2)

/-- The default geometry record used for the (unreachable) out-of-range
list access in the embedding of `dims[img_index]`. -/
def dims0 : ImageDims := ⟨0, 0, none, none, none⟩

/-- Embedding of `OCRModelInterface._postprocess_ocr_response`. `dims` is
`none` for Python `None`; division is rational division (the Geometry
invariant `scale_factor > 0` of spec section 3 keeps Python clear of
`ZeroDivisionError` on the same inputs). -/
def postprocess_ocr_response (bounding_boxes : List BBox)
    (text_predictions : List String) (conf_scores : List ℚ)
    (dims : Option (List ImageDims)) (img_index : Nat)
    (scale_coordinates : Bool) (shift_coordinates : Bool) :
    Except PyError (List (List (ℚ × ℚ)) × List String × List ℚ) :=
  match dims with
  | none => .error (.valueError "No image_dims provided.")
  | some ds =>
    if ds = [] then .error (.valueError "No image_dims provided.")
    else
      let idx := if ds.length ≤ img_index then 0 else img_index
      let g := ds.getD idx dims0
      let max_width := if scale_coordinates then g.new_width else 1
      let max_height := if scale_coordinates then g.new_height else 1
      let pad_width := if shift_coordinates then g.pad_width.getD 0 else 0
      let pad_height := if shift_coordinates then g.pad_height.getD 0 else 0
      let scale_factor := if scale_coordinates then g.scale_factor.getD 1 else 1
      .ok (remap_loop max_width max_height pad_width pad_height scale_factor
        (zip3 bounding_boxes text_predictions conf_scores))

/-- A JSON value as produced by `json.loads` on a gRPC response cell
(objects do not occur in these replies). -/
inductive JVal where
  | jnum (q : ℚ)
  | jstr (s : String)
  | jarr (l : List JVal)

/-- Embedding of the singleton-unwrap step
(`isinstance(x, list) and len(x) == 1` then `x = x[0]`). -/
def unwrap1 : JVal → JVal
  | .jarr [x] => x
  | v => v

/-- Read a JSON value as one `[x, y]` point. Per the wire contract (spec
section 6) a point is a pair of numbers; on any other value the Python
conversion loop raises (`float` of a non-numeric, or indexing a
non-indexable). -/
def decodePoint : JVal → Option (ℚ × ℚ)
  | .jarr [.jnum x, .jnum y] => some (x, y)
  | _ => none

/-- Read a JSON value as one bounding-box entry: the `"nan"` sentinel or a
polygon. -/
def decodeBBox : JVal → Option BBox
  | .jstr s => if s = "nan" then some BBox.nan else none
  | .jarr l => (l.mapM decodePoint).map BBox.poly
  | _ => none

/-- Read a JSON value as one text prediction. -/
def decodeText : JVal → Option String
  | .jstr s => some s
  | _ => none

/-- Read a JSON value as one confidence score. -/
def decodeConf : JVal → Option ℚ
  | .jnum q => some q
  | _ => none

/-- Read a JSON value as a list, element-wise. -/
def decodeListJ (f : JVal → Option β) : JVal → Option (List β)
  | .jarr l => l.mapM f
  | _ => none

/-- The shape-relevant structure of the object handed to the gRPC response
parser: a NumPy array of rank 1, rank 2, or some other rank, or not an
array at all. -/
inductive GrpcReply where
  | arr1 (cells : List JVal)
  | arr2 (rows : List (List JVal))
  | arrOther (shape : List Nat)
  | notNdarray

/-- The parsed result for one image: aligned polygons, texts,
confidences. -/
abbrev ImgResult := List (List (ℚ × ℚ)) × List String × List ℚ

/-- One column of a gRPC reply: take the three cells, unwrap singleton
lists, read them as typed lists and postprocess. A failed read models the
TypeError or ValueError Python raises when a value of the wrong shape
(for instance a singleton-unwrapped list) reaches `zip` or the conversion
loop. -/
def grpc_parse_col (rows : List (List JVal))
    (dimensions : Option (List ImageDims)) (scale_coordinates : Bool)
    (i : Nat) : Except PyError ImgResult :=
  let bb := unwrap1 ((rows.getD 0 []).getD i (JVal.jarr []))
  let tx := unwrap1 ((rows.getD 1 []).getD i (JVal.jarr []))
  let cf := unwrap1 ((rows.getD 2 []).getD i (JVal.jarr []))
  match decodeListJ decodeBBox bb, decodeListJ decodeText tx,
      decodeListJ decodeConf cf with
  | some bounding_boxes, some text_predictions, some conf_scores =>
    postprocess_ocr_response bounding_boxes text_predictions conf_scores
      dimensions i scale_coordinates true
  | _, _, _ => .error (.typeError "zip argument does not support iteration")

/-- The per-column loop of `_extract_content_from_ocr_grpc_response`. -/
def grpc_parse_cols (rows : List (List JVal))
    (dimensions : Option (List ImageDims)) (scale_coordinates : Bool) :
    List Nat → Except PyError (List ImgResult)
  | [] => .ok []
  | i :: rest => do
    let r ← grpc_parse_col rows dimensions scale_coordinates i
    let rs ← grpc_parse_cols rows dimensions scale_coordinates rest
    .ok (r :: rs)

/-- Embedding of `OCRModelInterface._extract_content_from_ocr_grpc_response`.
A flat (3,) reply is reshaped to (3, 1); any other shape that is not
2-dimensional with 3 rows is rejected. -/
def extract_content_from_ocr_grpc_response (response : GrpcReply)
    (dimensions : Option (List ImageDims)) (model_name : String) :
    Except PyError (List ImgResult) :=
  match response with
  | .notNdarray =>
    .error (.valueError "Unexpected response format: response is not a NumPy array.")
  | .arr1 cells =>
    match cells with
    | [r0, r1, r2] =>
      grpc_parse_cols [[r0], [r1], [r2]] dimensions (model_name = "paddle")
        (List.range 1)
    | _ => .error (.valueError "Unexpected response shape. Expecting (3,) or (3, n).")
  | .arr2 rows =>
    if rows.length = 3 then
      grpc_parse_cols rows dimensions (model_name = "paddle")
        (List.range (rows.headD []).length)
    else .error (.valueError "Unexpected response shape. Expecting (3,) or (3, n).")
  | .arrOther _ =>
    .error (.valueError "Unexpected response shape. Expecting (3,) or (3, n).")

/-- The `text_prediction` object of an HTTP detection. -/
structure TextPrediction where
  text : String
  confidence : ℚ

/-- The `bounding_box` object of an HTTP detection. -/
structure BoundingBoxJ where
  points : List (ℚ × ℚ)

/-- One element of a `text_detections` list. -/
structure TextDetection where
  text_prediction : TextPrediction
  bounding_box : BoundingBoxJ

/-- One element of the HTTP `data` array (the `text_detections` key is read
with default `[]`). -/
structure HttpItem where
  text_detections : Option (List TextDetection)

/-- An HTTP JSON reply (the `data` key may be absent). -/
structure HttpResponse where
  data : Option (List HttpItem)

/-- The per-item loop of `_extract_content_from_ocr_http_response`: build
the three aligned lists from `text_detections` (a plain list from JSON is
never the `"nan"` sentinel) and postprocess at the enumeration index. -/
def http_parse_items (dimensions : Option (List ImageDims)) :
    Nat → List HttpItem → Except PyError (List ImgResult)
  | _, [] => .ok []
  | item_idx, item :: rest => do
    let tds := item.text_detections.getD []
    let text_predictions := tds.map fun td => td.text_prediction.text
    let bounding_boxes := tds.map fun td => BBox.poly td.bounding_box.points
    let conf_scores := tds.map fun td => td.text_prediction.confidence
    let r ← postprocess_ocr_response bounding_boxes text_predictions
      conf_scores dimensions item_idx true true
    let rs ← http_parse_items dimensions (item_idx + 1) rest
    .ok (r :: rs)

/-- Embedding of `OCRModelInterface._extract_content_from_ocr_http_response`. -/
def extract_content_from_ocr_http_response (json_response : HttpResponse)
    (dimensions : Option (List ImageDims)) : Except PyError (List ImgResult) :=
  match json_response.data with
  | none => .error (.runtimeError "Unexpected response format: data key is missing or empty.")
  | some [] => .error (.runtimeError "Unexpected response format: data key is missing or empty.")
  | some items => http_parse_items dimensions 0 items

/-- A raw response value handed to `parse_output`. -/
inductive RawResponse where
  | grpc (r : GrpcReply)
  | httpR (r : HttpResponse)

/-- The optional `data` argument of `parse_output` (only its `image_dims`
key is read). -/
structure ParseData where
  image_dims : Option (List ImageDims)

/-- Embedding of `OCRModelInterface.parse_output`. Handing a reply of the
other wire format to a protocol also errors in Python (the gRPC extractor
checks `isinstance(response, np.ndarray)`; the HTTP extractor cannot treat
an ndarray as a mapping). -/
def parse_output (response : RawResponse) (protocol : String)
    (data : Option ParseData) (model_name : String) :
    Except PyError (List ImgResult) :=
  let dims := match data with
    | none => none
    | some d => d.image_dims
  if protocol = "grpc" then
    match response with
    | .grpc r => extract_content_from_ocr_grpc_response r dims model_name
    | .httpR _ =>
      .error (.valueError "Unexpected response format: response is not a NumPy array.")
  else if protocol = "http" then
    match response with
    | .httpR r => extract_content_from_ocr_http_response r dims
    | .grpc _ =>
      .error (.runtimeError "Unexpected response format: data key is missing or empty.")
  else
    .error (.valueError "Invalid protocol specified. Must be grpc or http.")

/-- One abstract detection: a polygon, its text, its confidence. -/
structure Detection where
  points : List (ℚ × ℚ)
  text : String
  conf : ℚ

/-- The gRPC wire encoding (spec section 6) of per-image detection lists:
a 3 x N matrix whose row 0 cell i is the boxes JSON of image i, row 1 the
texts JSON, row 2 the confidences JSON (cells modelled after
`json.loads`). -/
def encodeGrpc (imgs : List (List Detection)) : GrpcReply :=
  .arr2 [
    imgs.map fun dets => JVal.jarr (dets.map fun d =>
      JVal.jarr (d.points.map fun p => JVal.jarr [JVal.jnum p.1, JVal.jnum p.2])),
    imgs.map fun dets => JVal.jarr (dets.map fun d => JVal.jstr d.text),
    imgs.map fun dets => JVal.jarr (dets.map fun d => JVal.jnum d.conf)]

/-- The HTTP wire encoding (spec section 6) of the same detections. -/
def encodeHttp (imgs : List (List Detection)) : HttpResponse :=
  ⟨some (imgs.map fun dets =>
    ⟨some (dets.map fun d => ⟨⟨d.text, d.conf⟩, ⟨d.points⟩⟩)⟩)⟩

/-- A Python value held under an input key (string, number, or list). -/
inductive PyObj where
  | pstr (s : String)
  | pnum (q : ℚ)
  | plist (l : List PyObj)

/-- The input mapping of `prepare_data_for_inference`, restricted to the two
keys the method reads. -/
structure PrepData where
  base64_image : Option PyObj
  base64_images : Option PyObj

/-- Embedding of `OCRModelInterface.prepare_data_for_inference`; the
external base64 decoder `base64_to_numpy` is a parameter. Returns the
decoded `image_arrays`. -/
def prepare_data_for_inference (base64_to_numpy : PyObj → NDImage)
    (data : PrepData) : Except PyError (List NDImage) :=
  match data.base64_images with
  | some v =>
    match v with
    | .plist l => .ok (l.map base64_to_numpy)
    | _ => .error (.valueError
        "The base64_images key must contain a list of base64-encoded strings.")
  | none =>
    match data.base64_image with
    | some b => .ok [base64_to_numpy b]
    | none => .error (.keyError
        "Input data must include base64_image or base64_images.")

/-- Embedding of `get_ocr_model_name`. The environment lookup and the Triton
registry query are parameters: `query ep = none` models any exception inside
the `try` block (connection failure, or the `IndexError` path is the
`some []` case), `query ep = some names` a registry listing `names`. The
`backoff` and cache decorators wrapping the function do not change the value
it returns. -/
def get_ocr_model_name (env_ocr_model_name : Option String)
    (query : String → Option (List String))
    (ocr_grpc_endpoint : Option String) (default_model_name : String) :
    String :=
  match env_ocr_model_name with
  | some name => name
  | none =>
    match ocr_grpc_endpoint with
    | none => default_model_name
    | some ep =>
      if ep = "" then default_model_name
      else
        match query ep with
        | none => default_model_name
        | some model_names =>
          match model_names with
          | [] => default_model_name
          | m :: _ => m

/-! Lemmas about the chunking helper. -/

theorem chunk_nil (n : Nat) : chunk_list ([] : List α) n = [] := by
  rw [chunk_list.eq_def]

theorem chunk_list_zero (l : List α) : chunk_list l 0 = [] := by
  cases l <;> rw [chunk_list.eq_def] <;> simp

theorem chunk_cons {l : List α} {n : Nat} (hl : l ≠ []) (hn : 0 < n) :
    chunk_list l n = l.take n :: chunk_list (l.drop n) n := by
  obtain ⟨x, xs, rfl⟩ := List.exists_cons_of_ne_nil hl
  rw [chunk_list.eq_def]
  simp [Nat.pos_iff_ne_zero.mp hn]

/-- Recursion principle following the call structure of `chunk_list`. -/
theorem chunk_list_rec {motive : List α → Prop} (n : Nat) (hn : 0 < n)
    (base : motive []) (step : ∀ l : List α, l ≠ [] → motive (l.drop n) → motive l) :
    ∀ l : List α, motive l := by
  intro l
  generalize hk : l.length = k
  induction k using Nat.strong_induction_on generalizing l with
  | _ k ih =>
    by_cases hl : l = []
    · subst hl; exact base
    · refine step l hl (ih (l.drop n).length ?_ _ rfl)
      subst hk
      have h1 : 0 < l.length := List.length_pos.mpr hl
      simp only [List.length_drop]
      omega

theorem chunk_join (n : Nat) (hn : 0 < n) (l : List α) :
    (chunk_list l n).flatten = l := by
  refine chunk_list_rec (motive := fun l => (chunk_list l n).flatten = l) n hn ?_ ?_ l
  · simp [chunk_nil]
  · intro l hl ih
    rw [chunk_cons hl hn]
    simp [ih, List.take_append_drop]

theorem chunk_length (n : Nat) (hn : 0 < n) (l : List α) :
    (chunk_list l n).length = (l.length + n - 1) / n := by
  refine chunk_list_rec
    (motive := fun l => (chunk_list l n).length = (l.length + n - 1) / n) n hn ?_ ?_ l
  · dsimp only
    rw [chunk_nil]
    simp [Nat.div_eq_of_lt (show n - 1 < n by omega)]
  · intro l hl ih
    rw [chunk_cons hl hn]
    have hm : 0 < l.length := List.length_pos.mpr hl
    have key : (l.length + n - 1) / n = (l.length - 1) / n + 1 := by
      rw [show l.length + n - 1 = (l.length - 1) + n by omega,
        Nat.add_div_right _ hn]
    simp only [List.length_cons, ih, List.length_drop, key]
    rcases le_or_lt n l.length with h | h
    · rw [show l.length - n + n - 1 = l.length - 1 by omega]
    · rw [Nat.div_eq_of_lt (by omega), Nat.div_eq_of_lt (by omega)]

theorem chunk_mem (n : Nat) (hn : 0 < n) (l : List α) :
    ∀ c ∈ chunk_list l n, c.length ≤ n ∧ c ≠ [] := by
  refine chunk_list_rec
    (motive := fun l => ∀ c ∈ chunk_list l n, c.length ≤ n ∧ c ≠ []) n hn ?_ ?_ l
  · simp [chunk_nil]
  · intro l hl ih c hc
    rw [chunk_cons hl hn] at hc
    rcases List.mem_cons.mp hc with rfl | h
    · constructor
      · simp [List.length_take]
      · intro he
        have := congrArg List.length he
        simp only [List.length_take, List.length_nil] at this
        have h1 : 0 < l.length := List.length_pos.mpr hl
        omega
    · exact ih c h

theorem chunk_map (f : α → β) (n : Nat) (hn : 0 < n) (l : List α) :
    chunk_list (l.map f) n = (chunk_list l n).map (List.map f) := by
  refine chunk_list_rec
    (motive := fun l => chunk_list (l.map f) n = (chunk_list l n).map (List.map f))
    n hn ?_ ?_ l
  · simp [chunk_nil]
  · intro l hl ih
    have hml : l.map f ≠ [] := by
      simpa using hl
    rw [chunk_cons hml hn, chunk_cons hl hn]
    simp [List.map_take]
    rw [← List.map_drop, ih]

/-! Lemmas about three-way zips of mapped lists. -/

theorem zip3_map_id (f : α → β) (g : α → γ) (l : List α) :
    zip3 (l.map f) l (l.map g) = l.map fun x => (f x, x, g x) := by
  induction l with
  | nil => rfl
  | cons x xs ih =>
    simp only [List.map_cons, zip3, List.zip_cons_cons] at ih ⊢
    rw [ih]

theorem zip3_map₃ (f : α → β) (g : α → γ) (h : α → δ) (l : List α) :
    zip3 (l.map f) (l.map g) (l.map h) = l.map fun x => (f x, g x, h x) := by
  induction l with
  | nil => rfl
  | cons x xs ih =>
    simp only [List.map_cons, zip3, List.zip_cons_cons] at ih ⊢
    rw [ih]

/-! Closed forms of the two `format_input` branches. -/

theorem format_input_grpc_eq (pp : NDImage → Tensor3 × ImageDims)
    (data : OCRData) (mbs : Nat) (model merge : String)
    (hne : data.image_arrays ≠ []) :
    format_input pp data "grpc" mbs model merge =
      .ok ((chunk_list data.image_arrays mbs).map fun c =>
            grpc_batch_of_chunk model merge (c.map fun img =>
              expand_dims
                (ocr_proc_fun pp model (max_img_side data.image_arrays) img).1),
           (chunk_list data.image_arrays mbs).map fun c =>
            BatchData.mk c (c.map fun img =>
              (ocr_proc_fun pp model (max_img_side data.image_arrays) img).2)) := by
  rcases Nat.eq_zero_or_pos mbs with rfl | hmb
  · simp [format_input, hne, chunk_list_zero, zip3]
  · simp only [format_input, if_pos rfl, if_neg hne, List.map_map]
    rw [chunk_map _ _ hmb, chunk_map _ _ hmb, zip3_map_id]
    simp [List.map_map, Function.comp_def]

theorem format_input_http_eq (images : List NDImage) (bl : List String)
    (mbs : Nat) (model merge : String) (hlen : bl.length = images.length) :
    format_input_http images bl mbs model merge =
      .ok ((chunk_list (bl.zip images) mbs).map fun c =>
             http_batch_of_chunk model merge (c.map fun p =>
               ImageObj.mk "image_url" ("data:image/png;base64," ++ p.1)),
           (chunk_list (bl.zip images) mbs).map fun c =>
             BatchData.mk (c.map Prod.snd) (c.map fun p =>
               ImageDims.mk (p.2.width : ℚ) (p.2.height : ℚ) none none none)) := by
  rcases Nat.eq_zero_or_pos mbs with rfl | hmb
  · simp [format_input_http, chunk_list_zero, zip3]
  · have hsnd : (bl.zip images).map Prod.snd = images :=
      List.map_snd_zip bl images (le_of_eq hlen.symm)
    have hchunk : chunk_list images mbs =
        (chunk_list (bl.zip images) mbs).map (List.map Prod.snd) := by
      rw [← chunk_map Prod.snd mbs hmb, hsnd]
    simp only [format_input_http]
    rw [hchunk, chunk_map _ mbs hmb, chunk_map _ mbs hmb, zip3_map₃]
    simp [List.map_map, Function.comp_def]

/-! Lemmas about shapes and maxima. -/

theorem np_concat_b (ts : List Tensor4) :
    (np_concat ts).b = (ts.map Tensor4.b).sum := by
  cases ts <;> simp [np_concat]

theorem sum_ones (l : List α) : (l.map fun _ => (1 : Nat)).sum = l.length := by
  induction l with
  | nil => rfl
  | cons x xs ih =>
    simp [ih]
    omega

theorem np_concat_expand_b (f : α → Tensor3) (c : List α) :
    (np_concat (c.map fun x => expand_dims (f x))).b = c.length := by
  rw [np_concat_b]
  simp only [List.map_map, Function.comp_def, expand_dims]
  exact sum_ones c

theorem foldr_max_le (l : List Nat) : ∀ x ∈ l, x ≤ l.foldr max 0 := by
  induction l with
  | nil => simp
  | cons a as ih =>
    intro x hx
    rcases List.mem_cons.mp hx with rfl | h
    · exact le_max_left _ _
    · exact le_trans (ih x h) (le_max_right _ _)

theorem foldr_max_mem (l : List Nat) (hl : l ≠ []) : l.foldr max 0 ∈ l := by
  induction l with
  | nil => cases hl rfl
  | cons a as ih =>
    by_cases h : as = []
    · subst h
      simp
    · have hm := ih h
      simp only [List.foldr_cons]
      rcases le_total (as.foldr max 0) a with h2 | h2
      · rw [max_eq_left h2]
        exact List.mem_cons_self a as
      · rw [max_eq_right h2]
        exact List.mem_cons_of_mem _ hm

/-! Characterization of the remap loop. -/

theorem remap_loop_eq (mw mh pw ph s : ℚ) (ts : List (BBox × String × ℚ)) :
    remap_loop mw mh pw ph s ts =
      ((ts.filter fun t => !t.1.isNan).map fun t =>
          t.1.pts.map (remap_point mw mh pw ph s),
       (ts.filter fun t => !t.1.isNan).map fun t => t.2.1,
       (ts.filter fun t => !t.1.isNan).map fun t => t.2.2) := by
  induction ts with
  | nil => rfl
  | cons t ts ih =>
    obtain ⟨box, txt, conf⟩ := t
    cases box with
    | nan => simpa [remap_loop, List.filter_cons, BBox.isNan] using ih
    | poly points =>
      simp [remap_loop, List.filter_cons, BBox.isNan, BBox.pts, ih]

/-! The claims. -/

/-- C1: for every geometry list, every in-range image index, both flag
settings and every retained polygon point (x, y),
`_postprocess_ocr_response` maps the point to
`((x * max_w - pad_w) / s, (y * max_h - pad_h) / s)`, where `max_w`/`max_h`
are the stored new width/height when `scale_coordinates` and 1 otherwise,
`pad_w`/`pad_h` the stored paddings (default 0) when `shift_coordinates`
and 0 otherwise, and `s` the stored scale factor (default 1) when
`scale_coordinates` and 1 otherwise; in particular with both flags false
every point maps to itself. Output polygons preserve point order (the
output polygon is the pointwise map of the input polygon). -/
theorem C1_remap_formula (ds : List ImageDims) (i : Nat) (sc sh : Bool)
    (boxes : List BBox) (texts : List String) (confs : List ℚ)
    (hi : i < ds.length) :
    postprocess_ocr_response boxes texts confs (some ds) i sc sh =
      .ok (((zip3 boxes texts confs).filter fun t => !t.1.isNan).map fun t =>
              t.1.pts.map fun p =>
                ((p.1 * (if sc then (ds.getD i dims0).new_width else 1)
                    - (if sh then (ds.getD i dims0).pad_width.getD 0 else 0)) /
                  (if sc then (ds.getD i dims0).scale_factor.getD 1 else 1),
                 (p.2 * (if sc then (ds.getD i dims0).new_height else 1)
                    - (if sh then (ds.getD i dims0).pad_height.getD 0 else 0)) /
                  (if sc then (ds.getD i dims0).scale_factor.getD 1 else 1)),
            ((zip3 boxes texts confs).filter fun t => !t.1.isNan).map fun t => t.2.1,
            ((zip3 boxes texts confs).filter fun t => !t.1.isNan).map fun t => t.2.2) ∧
    postprocess_ocr_response boxes texts confs (some ds) i false false =
      .ok (((zip3 boxes texts confs).filter fun t => !t.1.isNan).map fun t => t.1.pts,
           ((zip3 boxes texts confs).filter fun t => !t.1.isNan).map fun t => t.2.1,
           ((zip3 boxes texts confs).filter fun t => !t.1.isNan).map fun t => t.2.2) := by
  have hne : ds ≠ [] := by
    intro h
    subst h
    simp at hi
  have hidx : ¬ ds.length ≤ i := not_le.mpr hi
  constructor
  · simp [postprocess_ocr_response, hne, hidx, remap_loop_eq, remap_point]
  · simp [postprocess_ocr_response, hne, hidx, remap_loop_eq]
    intro a a1 b hmem hnan
    have hrp : remap_point (1 : ℚ) 1 0 0 1 = fun p => p := by
      funext p
      simp [remap_point]
    simp [hrp]

/-- Witness for C1: the round-trip example of the spec. Geometry
(new_width 100, new_height 50, pad_width 5, pad_height 0, scale_factor 2)
maps the normalized point (1/2, 2/5) to (45/2, 10), that is
(22.5, 10.0). -/
theorem C1_remap_formula_witness :
    postprocess_ocr_response [BBox.poly [(1/2, 2/5)]] ["t"] [9/10]
      (some [⟨100, 50, some 5, some 0, some 2⟩]) 0 true true =
      .ok ([[(45/2, 10)]], ["t"], [9/10]) := by
  have h := C1_remap_formula [⟨100, 50, some 5, some 0, some 2⟩] 0 true true
    [BBox.poly [(1/2, 2/5)]] ["t"] [9/10] (by decide)
  rw [h.1]
  norm_num [zip3, BBox.pts, BBox.isNan]

/-- C7: every bounding-box entry equal to the sentinel is dropped, together
with the text and confidence at the same index; the three returned
sequences have equal length and the retained entries keep their relative
order and pairing. -/
theorem C7_nan_filtering (ds : List ImageDims) (i : Nat) (sc sh : Bool)
    (boxes : List BBox) (texts : List String) (confs : List ℚ)
    (hne : ds ≠ []) :
    ∃ bs ts cs,
      postprocess_ocr_response boxes texts confs (some ds) i sc sh =
        .ok (bs, ts, cs) ∧
      bs.length = ts.length ∧ ts.length = cs.length ∧
      bs.length = ((zip3 boxes texts confs).filter fun t => !t.1.isNan).length ∧
      ts = ((zip3 boxes texts confs).filter fun t => !t.1.isNan).map (fun t => t.2.1) ∧
      cs = ((zip3 boxes texts confs).filter fun t => !t.1.isNan).map (fun t => t.2.2) := by
  refine ⟨((zip3 boxes texts confs).filter fun t => !t.1.isNan).map fun t =>
      t.1.pts.map (remap_point
        (if sc then (ds.getD (if ds.length ≤ i then 0 else i) dims0).new_width else 1)
        (if sc then (ds.getD (if ds.length ≤ i then 0 else i) dims0).new_height else 1)
        (if sh then (ds.getD (if ds.length ≤ i then 0 else i) dims0).pad_width.getD 0 else 0)
        (if sh then (ds.getD (if ds.length ≤ i then 0 else i) dims0).pad_height.getD 0 else 0)
        (if sc then (ds.getD (if ds.length ≤ i then 0 else i) dims0).scale_factor.getD 1 else 1)),
    _, _, ?_, ?_, ?_, ?_, rfl, rfl⟩
  · simp [postprocess_ocr_response, hne, remap_loop_eq]
  · simp
  · simp
  · simp

/-- Witness for C7: a sentinel at index 1 of three entries drops exactly the
middle text and confidence, keeping the outer entries aligned. -/
theorem C7_nan_filtering_witness :
    ([(⟨1, 1, none, none, none⟩ : ImageDims)] ≠ []) ∧
    ∃ bs ts cs,
      postprocess_ocr_response [BBox.poly [(0, 0)], BBox.nan, BBox.poly []]
        ["a", "b", "c"] [1/4, 1/2, 3/4]
        (some [⟨1, 1, none, none, none⟩]) 0 false false = .ok (bs, ts, cs) ∧
      bs.length = ts.length ∧ ts.length = cs.length ∧
      bs.length = ((zip3 [BBox.poly [(0, 0)], BBox.nan, BBox.poly []]
        ["a", "b", "c"] [1/4, 1/2, 3/4]).filter fun t => !t.1.isNan).length ∧
      ts = ((zip3 [BBox.poly [(0, 0)], BBox.nan, BBox.poly []]
        ["a", "b", "c"] [1/4, 1/2, 3/4]).filter fun t => !t.1.isNan).map (fun t => t.2.1) ∧
      cs = ((zip3 [BBox.poly [(0, 0)], BBox.nan, BBox.poly []]
        ["a", "b", "c"] [1/4, 1/2, 3/4]).filter fun t => !t.1.isNan).map (fun t => t.2.2) :=
  ⟨by decide,
   C7_nan_filtering [⟨1, 1, none, none, none⟩] 0 false false
     [BBox.poly [(0, 0)], BBox.nan, BBox.poly []]
     ["a", "b", "c"] [1/4, 1/2, 3/4] (by decide)⟩

/-- C8: with no geometry list at all (None or empty),
`_postprocess_ocr_response` raises the missing-geometry error; with a
geometry list present and `img_index` at or beyond its length it does not
fail: it behaves exactly as with index 0 and returns a result. -/
theorem C8_geometry_errors :
    (∀ (boxes : List BBox) (texts : List String) (confs : List ℚ)
        (i : Nat) (sc sh : Bool),
      postprocess_ocr_response boxes texts confs none i sc sh =
        .error (.valueError "No image_dims provided.") ∧
      postprocess_ocr_response boxes texts confs (some []) i sc sh =
        .error (.valueError "No image_dims provided.")) ∧
    (∀ (boxes : List BBox) (texts : List String) (confs : List ℚ)
        (ds : List ImageDims) (i : Nat) (sc sh : Bool),
      ds ≠ [] → ds.length ≤ i →
      postprocess_ocr_response boxes texts confs (some ds) i sc sh =
        postprocess_ocr_response boxes texts confs (some ds) 0 sc sh ∧
      ∃ out, postprocess_ocr_response boxes texts confs (some ds) i sc sh =
        .ok out) := by
  constructor
  · intro boxes texts confs i sc sh
    constructor
    · simp [postprocess_ocr_response]
    · simp [postprocess_ocr_response]
  · intro boxes texts confs ds i sc sh hne hle
    have h0 : ¬ ds.length ≤ 0 := by
      have := List.length_pos.mpr hne
      omega
    constructor
    · simp [postprocess_ocr_response, hne, hle, h0]
    · simp only [postprocess_ocr_response, if_neg hne]
      exact ⟨_, rfl⟩

/-- Witness for C8: index 5 on a one-element geometry list behaves as
index 0 and succeeds. -/
theorem C8_geometry_errors_witness :
    postprocess_ocr_response [BBox.poly [(1, 1)]] ["a"] [1]
      (some [⟨3, 4, none, none, none⟩]) 5 true true =
      postprocess_ocr_response [BBox.poly [(1, 1)]] ["a"] [1]
        (some [⟨3, 4, none, none, none⟩]) 0 true true ∧
    ∃ out, postprocess_ocr_response [BBox.poly [(1, 1)]] ["a"] [1]
      (some [⟨3, 4, none, none, none⟩]) 5 true true = .ok out :=
  C8_geometry_errors.2 [BBox.poly [(1, 1)]] ["a"] [1]
    [⟨3, 4, none, none, none⟩] 5 true true (by decide) (by decide)

/-- C10: with an empty `image_arrays` list the gRPC branch of `format_input`
raises (the maximum image side is taken over an empty sequence, before any
batching, for both model variants), while the HTTP branch returns two empty
lists; neither path checks the non-empty-input precondition as one of the
declared error kinds (the gRPC error is the bare `max()` ValueError). -/
theorem C10_empty_image_list :
    (∀ (pp : NDImage → Tensor3 × ImageDims) (b64s : Option (List String))
        (b64 : Option String) (mbs : Nat) (model merge : String),
      format_input pp ⟨[], b64s, b64⟩ "grpc" mbs model merge =
        .error (.valueError "max arg is an empty sequence")) ∧
    (∀ (pp : NDImage → Tensor3 × ImageDims) (bl : List String)
        (b64 : Option String) (mbs : Nat) (model merge : String),
      format_input pp ⟨[], some bl, b64⟩ "http" mbs model merge =
        .ok ([], [])) ∧
    (∀ (pp : NDImage → Tensor3 × ImageDims) (b64 : String)
        (mbs : Nat) (model merge : String),
      format_input pp ⟨[], none, some b64⟩ "http" mbs model merge =
        .ok ([], [])) := by
  refine ⟨fun pp b64s b64 mbs model merge => ?_,
    fun pp bl b64 mbs model merge => ?_, fun pp b64 mbs model merge => ?_⟩
  · simp [format_input]
  · simp [format_input, format_input_http, zip3, chunk_nil]
  · simp [format_input, format_input_http, zip3, chunk_nil]

/-- The number of images carried by one batch payload: the batch axis of
the tensor for gRPC, the length of the `input` list for HTTP. -/
def payload_len : OCRBatch → Nat
  | .tensor t => t.b
  | .tensorMerge t _ => t.b
  | .http p => p.input.length

theorem zip_map_same (f : α → β) (g : α → γ) (l : List α) :
    (l.map f).zip (l.map g) = l.map fun x => (f x, g x) := by
  induction l with
  | nil => rfl
  | cons x xs ih => simp [ih]

theorem payload_len_grpc_batch (model merge : String) (f : NDImage → Tensor3)
    (c : List NDImage) :
    payload_len (grpc_batch_of_chunk model merge
      (c.map fun img => expand_dims (f img))) = c.length := by
  by_cases h : model = "paddle" <;>
    simp [grpc_batch_of_chunk, h, payload_len, np_concat_expand_b]

theorem payload_len_http_batch (model merge : String) (f : α → ImageObj)
    (c : List α) :
    payload_len (http_batch_of_chunk model merge (c.map f)) = c.length := by
  by_cases h : model = "paddle" <;>
    simp [http_batch_of_chunk, h, payload_len]

/-- C2: for every non-empty list of N input images and every positive
`max_batch_size`, `format_input` (under both protocols) returns exactly
ceil(N / max_batch_size) batches; each batch holds at most `max_batch_size`
images, its payload chunk and its geometry chunk have equal length, and
concatenating the per-batch image lists in order reproduces the input list
exactly. -/
theorem C2_batch_partitioning (pp : NDImage → Tensor3 × ImageDims)
    (data : OCRData) (mbs : Nat) (model merge : String) (hmb : 0 < mbs) :
    (data.image_arrays ≠ [] →
      ∃ batches bdl,
        format_input pp data "grpc" mbs model merge = .ok (batches, bdl) ∧
        batches.length = (data.image_arrays.length + mbs - 1) / mbs ∧
        bdl.length = (data.image_arrays.length + mbs - 1) / mbs ∧
        (bdl.map BatchData.image_arrays).flatten = data.image_arrays ∧
        ∀ p ∈ batches.zip bdl,
          payload_len p.1 = p.2.image_dims.length ∧
          p.2.image_arrays.length = p.2.image_dims.length ∧
          p.2.image_arrays.length ≤ mbs) ∧
    (∀ bl : List String, data.base64_images = some bl →
      bl.length = data.image_arrays.length →
      ∃ batches bdl,
        format_input pp data "http" mbs model merge = .ok (batches, bdl) ∧
        batches.length = (data.image_arrays.length + mbs - 1) / mbs ∧
        bdl.length = (data.image_arrays.length + mbs - 1) / mbs ∧
        (bdl.map BatchData.image_arrays).flatten = data.image_arrays ∧
        ∀ p ∈ batches.zip bdl,
          payload_len p.1 = p.2.image_dims.length ∧
          p.2.image_arrays.length = p.2.image_dims.length ∧
          p.2.image_arrays.length ≤ mbs) := by
  constructor
  · intro hne
    refine ⟨_, _, format_input_grpc_eq pp data mbs model merge hne, ?_, ?_, ?_, ?_⟩
    · simp [chunk_length mbs hmb]
    · simp [chunk_length mbs hmb]
    · simp only [List.map_map, Function.comp_def]
      have : (fun c : List NDImage => (BatchData.mk c (c.map fun img =>
          (ocr_proc_fun pp model (max_img_side data.image_arrays) img).2)).image_arrays)
          = fun c => c := rfl
      rw [this]
      simp only [List.map_id']
      exact chunk_join mbs hmb _
    · rw [zip_map_same]
      intro p hp
      obtain ⟨c, hc, rfl⟩ := List.mem_map.mp hp
      refine ⟨?_, by simp, ?_⟩
      · simp only [payload_len_grpc_batch]
        simp
      · simpa using (chunk_mem mbs hmb data.image_arrays c hc).1
  · intro bl hbl hlen
    have heq : format_input pp data "http" mbs model merge =
        format_input_http data.image_arrays bl mbs model merge := by
      simp [format_input, hbl]
    rw [heq, format_input_http_eq data.image_arrays bl mbs model merge hlen]
    have hpairs : (bl.zip data.image_arrays).length = data.image_arrays.length := by
      simp [List.length_zip, hlen]
    refine ⟨_, _, rfl, ?_, ?_, ?_, ?_⟩
    · simp [chunk_length mbs hmb, hpairs]
    · simp [chunk_length mbs hmb, hpairs]
    · simp only [List.map_map, Function.comp_def]
      have : (fun c : List (String × NDImage) => (BatchData.mk (c.map Prod.snd)
          (c.map fun p => ImageDims.mk (p.2.width : ℚ) (p.2.height : ℚ)
            none none none)).image_arrays) = fun c => c.map Prod.snd := rfl
      rw [this, ← List.map_flatten, chunk_join mbs hmb,
        List.map_snd_zip bl data.image_arrays (le_of_eq hlen.symm)]
    · rw [zip_map_same]
      intro p hp
      obtain ⟨c, hc, rfl⟩ := List.mem_map.mp hp
      refine ⟨?_, by simp, ?_⟩
      · simp only [payload_len_http_batch]
        simp
      · simpa using (chunk_mem mbs hmb (bl.zip data.image_arrays) c hc).1

/-- Witness for C2: three one-pixel images, batch size two, under both
protocols. -/
theorem C2_batch_partitioning_witness :
    0 < 2 ∧
    (∃ batches bdl,
      format_input (fun _ => (⟨1, 1, 1⟩, dims0))
        ⟨[⟨1, 1, 3⟩, ⟨1, 2, 3⟩, ⟨2, 1, 3⟩], some ["a", "b", "c"], none⟩
        "grpc" 2 "paddle" "paragraph" = .ok (batches, bdl) ∧
      batches.length = ([⟨1, 1, 3⟩, ⟨1, 2, 3⟩, (⟨2, 1, 3⟩ : NDImage)].length + 2 - 1) / 2 ∧
      bdl.length = ([⟨1, 1, 3⟩, ⟨1, 2, 3⟩, (⟨2, 1, 3⟩ : NDImage)].length + 2 - 1) / 2 ∧
      (bdl.map BatchData.image_arrays).flatten = [⟨1, 1, 3⟩, ⟨1, 2, 3⟩, ⟨2, 1, 3⟩] ∧
      ∀ p ∈ batches.zip bdl,
        payload_len p.1 = p.2.image_dims.length ∧
        p.2.image_arrays.length = p.2.image_dims.length ∧
        p.2.image_arrays.length ≤ 2) := by
  constructor
  · decide
  · exact (C2_batch_partitioning (fun _ => (⟨1, 1, 1⟩, dims0))
      ⟨[⟨1, 1, 3⟩, ⟨1, 2, 3⟩, ⟨2, 1, 3⟩], some ["a", "b", "c"], none⟩
      2 "paddle" "paragraph" (by decide)).1 (by decide)

/-- C5: for a non-paddle model under gRPC, `format_input` computes a single
square target equal to the maximum height/width over the entire input list,
before any chunking, and preprocesses every image to that same square
canvas, so every batch of the call carries tensors of that one canvas
size. -/
theorem C5_global_square_target (pp : NDImage → Tensor3 × ImageDims)
    (data : OCRData) (mbs : Nat) (model merge : String)
    (hm : model ≠ "paddle") (hne : data.image_arrays ≠ []) (hmb : 0 < mbs) :
    ∃ batches bdl,
      format_input pp data "grpc" mbs model merge = .ok (batches, bdl) ∧
      batches ≠ [] ∧
      ∀ b ∈ batches, ∃ t ml, b = OCRBatch.tensorMerge t ml ∧
        t.h = t.w ∧
        (∀ img ∈ data.image_arrays, img.height ≤ t.h ∧ img.width ≤ t.h) ∧
        (∃ img ∈ data.image_arrays, t.h = max img.height img.width) := by
  refine ⟨_, _, format_input_grpc_eq pp data mbs model merge hne, ?_, ?_⟩
  · rw [chunk_cons hne hmb]
    simp
  · intro b hb
    obtain ⟨c, hc, rfl⟩ := List.mem_map.mp hb
    obtain ⟨a, c', rfl⟩ := List.exists_cons_of_ne_nil (chunk_mem mbs hmb _ c hc).2
    have hh : (np_concat ((a :: c').map fun img =>
        expand_dims (ocr_proc_fun pp model (max_img_side data.image_arrays) img).1)).h
        = max_img_side data.image_arrays := by
      simp [np_concat, expand_dims, ocr_proc_fun, hm, preprocess_image_for_ocr]
    have hw : (np_concat ((a :: c').map fun img =>
        expand_dims (ocr_proc_fun pp model (max_img_side data.image_arrays) img).1)).w
        = max_img_side data.image_arrays := by
      simp [np_concat, expand_dims, ocr_proc_fun, hm, preprocess_image_for_ocr]
    refine ⟨np_concat ((a :: c').map fun img =>
        expand_dims (ocr_proc_fun pp model (max_img_side data.image_arrays) img).1),
      [List.replicate (np_concat ((a :: c').map fun img =>
        expand_dims (ocr_proc_fun pp model (max_img_side data.image_arrays) img).1)).b merge],
      ?_, ?_, ?_, ?_⟩
    · simp [grpc_batch_of_chunk, hm]
    · rw [hh, hw]
    · intro img himg
      have h1 : max img.height img.width ≤ max_img_side data.image_arrays :=
        foldr_max_le _ _ (List.mem_map.mpr ⟨img, himg, rfl⟩)
      rw [hh]
      omega
    · have h2 : max_img_side data.image_arrays ∈
          data.image_arrays.map fun img => max img.height img.width :=
        foldr_max_mem _ (by simpa using hne)
      obtain ⟨img, himg, heq⟩ := List.mem_map.mp h2
      refine ⟨img, himg, ?_⟩
      rw [hh]
      exact heq.symm

/-- Witness for C5: two images of sides (2, 3) and (5, 1); every batch
tensor is a 5 x 5 square. -/
theorem C5_global_square_target_witness :
    ∃ batches bdl,
      format_input (fun _ => (⟨1, 1, 1⟩, dims0))
        ⟨[⟨2, 3, 3⟩, ⟨5, 1, 3⟩], none, some "a"⟩ "grpc" 1 "ocrnet" "word" =
        .ok (batches, bdl) ∧
      batches ≠ [] ∧
      ∀ b ∈ batches, ∃ t ml, b = OCRBatch.tensorMerge t ml ∧
        t.h = t.w ∧
        (∀ img ∈ [⟨2, 3, 3⟩, (⟨5, 1, 3⟩ : NDImage)], img.height ≤ t.h ∧ img.width ≤ t.h) ∧
        (∃ img ∈ [⟨2, 3, 3⟩, (⟨5, 1, 3⟩ : NDImage)], t.h = max img.height img.width) :=
  C5_global_square_target (fun _ => (⟨1, 1, 1⟩, dims0))
    ⟨[⟨2, 3, 3⟩, ⟨5, 1, 3⟩], none, some "a"⟩ 1 "ocrnet" "word"
    (by decide) (by decide) (by decide)

/-- C6: `parse_output` over gRPC accepts a flat (3,) reply by reshaping it
to (3, 1), treating it identically to a one-column reply; a 1-dimensional
reply of any other length, a 2-dimensional reply without exactly 3 rows,
an array of any other rank, and a non-array reply all raise the
invalid-shape or not-an-array ValueError. -/
theorem C6_grpc_shape_handling :
    (∀ (a b c : JVal) (data : Option ParseData) (m : String),
      parse_output (.grpc (.arr1 [a, b, c])) "grpc" data m =
        parse_output (.grpc (.arr2 [[a], [b], [c]])) "grpc" data m) ∧
    (∀ (cells : List JVal) (data : Option ParseData) (m : String),
      cells.length ≠ 3 →
      parse_output (.grpc (.arr1 cells)) "grpc" data m =
        .error (.valueError "Unexpected response shape. Expecting (3,) or (3, n).")) ∧
    (∀ (rows : List (List JVal)) (data : Option ParseData) (m : String),
      rows.length ≠ 3 →
      parse_output (.grpc (.arr2 rows)) "grpc" data m =
        .error (.valueError "Unexpected response shape. Expecting (3,) or (3, n).")) ∧
    (∀ (shape : List Nat) (data : Option ParseData) (m : String),
      parse_output (.grpc (.arrOther shape)) "grpc" data m =
        .error (.valueError "Unexpected response shape. Expecting (3,) or (3, n).")) ∧
    (∀ (data : Option ParseData) (m : String),
      parse_output (.grpc .notNdarray) "grpc" data m =
        .error (.valueError "Unexpected response format: response is not a NumPy array.")) ∧
    (∀ (r : HttpResponse) (data : Option ParseData) (m : String),
      parse_output (.httpR r) "grpc" data m =
        .error (.valueError "Unexpected response format: response is not a NumPy array.")) := by
  refine ⟨?_, ?_, ?_, ?_, ?_, ?_⟩
  · intro a b c data m
    simp [parse_output, extract_content_from_ocr_grpc_response]
  · intro cells data m h
    rcases cells with _ | ⟨x, _ | ⟨y, _ | ⟨z, _ | ⟨w, rest⟩⟩⟩⟩ <;>
      simp_all [parse_output, extract_content_from_ocr_grpc_response]
  · intro rows data m h
    simp [parse_output, extract_content_from_ocr_grpc_response, h]
  · intro shape data m
    simp [parse_output, extract_content_from_ocr_grpc_response]
  · intro data m
    simp [parse_output, extract_content_from_ocr_grpc_response]
  · intro r data m
    simp [parse_output]

/-- Witness for C6: a flat 2-element reply is an invalid shape. -/
theorem C6_grpc_shape_handling_witness :
    ([JVal.jstr "x", JVal.jstr "y"].length ≠ 3) ∧
    parse_output (.grpc (.arr1 [JVal.jstr "x", JVal.jstr "y"])) "grpc" none "paddle" =
      .error (.valueError "Unexpected response shape. Expecting (3,) or (3, n).") :=
  ⟨by decide,
   C6_grpc_shape_handling.2.1 [JVal.jstr "x", JVal.jstr "y"] none "paddle" (by decide)⟩

/-- C4: `get_ocr_model_name` returns, in priority order: the environment
override whenever set, regardless of endpoint and default; the default
immediately, with no registry query, when no endpoint is supplied; the
first model name listed by the registry when the query succeeds; and the
default when the query fails for any reason, including a registry that
lists no models. -/
theorem C4_model_name_resolution :
    (∀ (name : String) (query : String → Option (List String))
        (ep : Option String) (dflt : String),
      get_ocr_model_name (some name) query ep dflt = name) ∧
    (∀ (query query2 : String → Option (List String)) (dflt : String),
      get_ocr_model_name none query none dflt = dflt ∧
      get_ocr_model_name none query none dflt =
        get_ocr_model_name none query2 none dflt) ∧
    (∀ (query : String → Option (List String)) (ep dflt m : String)
        (ms : List String),
      ep ≠ "" → query ep = some (m :: ms) →
      get_ocr_model_name none query (some ep) dflt = m) ∧
    (∀ (query : String → Option (List String)) (ep dflt : String),
      ep ≠ "" → query ep = none →
      get_ocr_model_name none query (some ep) dflt = dflt) ∧
    (∀ (query : String → Option (List String)) (ep dflt : String),
      ep ≠ "" → query ep = some [] →
      get_ocr_model_name none query (some ep) dflt = dflt) := by
  refine ⟨?_, ?_, ?_, ?_, ?_⟩
  · intro name query ep dflt
    rfl
  · intro query query2 dflt
    exact ⟨rfl, rfl⟩
  · intro query ep dflt m ms hep hq
    simp [get_ocr_model_name, hep, hq]
  · intro query ep dflt hep hq
    simp [get_ocr_model_name, hep, hq]
  · intro query ep dflt hep hq
    simp [get_ocr_model_name, hep, hq]

/-- Witness for C4: a registry listing two models resolves to the first. -/
theorem C4_model_name_resolution_witness :
    (("e" : String) ≠ "") ∧
    get_ocr_model_name none
      (fun _ => some ["scene_text", "paddle"]) (some "e") "paddle" = "scene_text" :=
  ⟨by decide,
   C4_model_name_resolution.2.2.1 (fun _ => some ["scene_text", "paddle"])
     "e" "paddle" "scene_text" ["paddle"] (by decide) rfl⟩

/-- C9 counterexample: an input mapping holding both keys is accepted
(`base64_images` takes precedence and `base64_image` is ignored), refuting
the exactly-one-key reading. -/
theorem C9_both_keys_counterexample :
    prepare_data_for_inference (fun _ => ⟨1, 1, 3⟩)
      ⟨some (.pstr "img"), some (.plist [.pstr "x"])⟩ = .ok [⟨1, 1, 3⟩] := rfl

/-- C9 (amended): `prepare_data_for_inference` accepts an input when at
least one of the two keys is present, with `base64_images` taking
precedence when both are; it fails with the missing-input-key error when
neither key is present, and with a type error when `base64_images` is
present but not a list. -/
theorem C9_input_key_validation :
    (∀ (dec : PyObj → NDImage) (d : PrepData),
      d.base64_images = none → d.base64_image = none →
      prepare_data_for_inference dec d =
        .error (.keyError "Input data must include base64_image or base64_images.")) ∧
    (∀ (dec : PyObj → NDImage) (d : PrepData) (v : PyObj),
      d.base64_images = some v → (∀ l, v ≠ .plist l) →
      prepare_data_for_inference dec d =
        .error (.valueError
          "The base64_images key must contain a list of base64-encoded strings.")) ∧
    (∀ (dec : PyObj → NDImage) (d : PrepData) (l : List PyObj),
      d.base64_images = some (.plist l) →
      prepare_data_for_inference dec d = .ok (l.map dec)) ∧
    (∀ (dec : PyObj → NDImage) (d : PrepData) (b : PyObj),
      d.base64_images = none → d.base64_image = some b →
      prepare_data_for_inference dec d = .ok [dec b]) := by
  refine ⟨?_, ?_, ?_, ?_⟩
  · intro dec d h1 h2
    simp [prepare_data_for_inference, h1, h2]
  · intro dec d v h1 h2
    cases v with
    | pstr s => simp [prepare_data_for_inference, h1]
    | pnum q => simp [prepare_data_for_inference, h1]
    | plist l => exact absurd rfl (h2 l)
  · intro dec d l h1
    simp [prepare_data_for_inference, h1]
  · intro dec d b h1 h2
    simp [prepare_data_for_inference, h1, h2]

/-- Witness for C9: a non-list `base64_images` value raises the type
error. -/
theorem C9_input_key_validation_witness :
    ((⟨none, some (.pstr "oops")⟩ : PrepData).base64_images = some (.pstr "oops")) ∧
    prepare_data_for_inference (fun _ => ⟨1, 1, 3⟩) ⟨none, some (.pstr "oops")⟩ =
      .error (.valueError
        "The base64_images key must contain a list of base64-encoded strings.") :=
  ⟨rfl,
   C9_input_key_validation.2.1 (fun _ => ⟨1, 1, 3⟩) ⟨none, some (.pstr "oops")⟩
     (.pstr "oops") rfl (fun l h => by cases h)⟩

theorem unwrap1_of_len_ne_one {l : List JVal} (h : l.length ≠ 1) :
    unwrap1 (.jarr l) = .jarr l := by
  rcases l with _ | ⟨x, _ | ⟨y, r⟩⟩ <;> simp_all [unwrap1]

theorem mapM_map_some (f : β → Option γ) (g : α → β) (h : α → γ)
    (H : ∀ x, f (g x) = some (h x)) (l : List α) :
    (l.map g).mapM f = some (l.map h) := by
  rw [← List.mapM'_eq_mapM]
  induction l with
  | nil => rfl
  | cons x xs ih => simp [List.mapM', H, ih]

theorem decode_boxes_encode (d : List Detection) :
    decodeListJ decodeBBox (JVal.jarr (d.map fun det =>
      JVal.jarr (det.points.map fun p => JVal.jarr [JVal.jnum p.1, JVal.jnum p.2]))) =
    some (d.map fun det => BBox.poly det.points) := by
  simp only [decodeListJ]
  refine mapM_map_some _ _ _ ?_ d
  intro det
  simp only [decodeBBox]
  rw [mapM_map_some decodePoint
    (fun p : ℚ × ℚ => JVal.jarr [JVal.jnum p.1, JVal.jnum p.2])
    (fun p => p) (fun p => rfl) det.points]
  simp

theorem decode_texts_encode (d : List Detection) :
    decodeListJ decodeText (JVal.jarr (d.map fun det => JVal.jstr det.text)) =
    some (d.map fun det => det.text) := by
  simp only [decodeListJ]
  exact mapM_map_some decodeText (fun det : Detection => JVal.jstr det.text)
    (fun det => det.text) (fun det => rfl) d

theorem decode_confs_encode (d : List Detection) :
    decodeListJ decodeConf (JVal.jarr (d.map fun det => JVal.jnum det.conf)) =
    some (d.map fun det => det.conf) := by
  simp only [decodeListJ]
  exact mapM_map_some decodeConf (fun det : Detection => JVal.jnum det.conf)
    (fun det => det.conf) (fun det => rfl) d

/-- The two extractors agree on semantically equivalent two-image replies
for the paddle model, provided neither image has a singleton detection
list. -/
theorem grpc_http_extract_eq (d1 d2 : List Detection)
    (dims : Option (List ImageDims))
    (h1 : d1.length ≠ 1) (h2 : d2.length ≠ 1) :
    extract_content_from_ocr_grpc_response (encodeGrpc [d1, d2]) dims "paddle" =
    extract_content_from_ocr_http_response (encodeHttp [d1, d2]) dims := by
  simp [extract_content_from_ocr_grpc_response, extract_content_from_ocr_http_response,
    encodeGrpc, encodeHttp, grpc_parse_cols, grpc_parse_col, http_parse_items,
    unwrap1_of_len_ne_one, decode_boxes_encode, decode_texts_encode,
    decode_confs_encode, List.range_succ, h1, h2, List.map_map, Function.comp_def]

/-- C3 (amended): `parse_output` over the gRPC and HTTP encodings of the
same detections for the same two images, with the same geometry data,
returns identical result sequences when the model is "paddle" (so both
sides scale) and neither image has exactly one detection (the defensive
singleton unwrap corrupts a genuine one-detection reply). -/
theorem C3_protocol_equivalence (d1 d2 : List Detection)
    (data : Option ParseData) (h1 : d1.length ≠ 1) (h2 : d2.length ≠ 1) :
    parse_output (.grpc (encodeGrpc [d1, d2])) "grpc" data "paddle" =
    parse_output (.httpR (encodeHttp [d1, d2])) "http" data "paddle" := by
  cases data with
  | none => simpa [parse_output] using grpc_http_extract_eq d1 d2 none h1 h2
  | some pd =>
    simpa [parse_output] using grpc_http_extract_eq d1 d2 pd.image_dims h1 h2

/-- Witness for C3 (amended): two images, with two and zero detections. -/
theorem C3_protocol_equivalence_witness :
    (([⟨[(1, 1)], "a", 1⟩, ⟨[], "b", 1/2⟩] : List Detection).length ≠ 1) ∧
    parse_output (.grpc (encodeGrpc [[⟨[(1, 1)], "a", 1⟩, ⟨[], "b", 1/2⟩], []]))
      "grpc" (some ⟨some [⟨2, 3, none, none, none⟩]⟩) "paddle" =
    parse_output (.httpR (encodeHttp [[⟨[(1, 1)], "a", 1⟩, ⟨[], "b", 1/2⟩], []]))
      "http" (some ⟨some [⟨2, 3, none, none, none⟩]⟩) "paddle" :=
  ⟨by decide,
   C3_protocol_equivalence [⟨[(1, 1)], "a", 1⟩, ⟨[], "b", 1/2⟩] []
     (some ⟨some [⟨2, 3, none, none, none⟩]⟩) (by decide) (by decide)⟩

/-- C3 counterexample: the two parsers disagree on semantically equivalent
replies encoding the same two images for the same model name, when the
first image carries exactly one detection: the gRPC defensive singleton
unwrap corrupts the decoded cells (in Python, `zip` is then applied to a
bare float and raises a TypeError), while the HTTP parser returns the
detection; so the claim as stated is false. -/
theorem C3_as_stated_counterexample :
    parse_output (.grpc (encodeGrpc [[⟨[(1, 1), (0, 0)], "a", 1⟩], []]))
      "grpc" (some ⟨some [⟨2, 2, none, none, none⟩, ⟨2, 2, none, none, none⟩]⟩)
      "paddle" ≠
    parse_output (.httpR (encodeHttp [[⟨[(1, 1), (0, 0)], "a", 1⟩], []]))
      "http" (some ⟨some [⟨2, 2, none, none, none⟩, ⟨2, 2, none, none, none⟩]⟩)
      "paddle" := by
  decide

end OCR
